import Mathlib

/-!
Shallow embedding of the correlated request/response messaging layer of
`browser_use`'s Electron integration:

* `ElectronSession` (src/browser_use/browser/electron_session.py):
  `_pending_responses : Dict[str, asyncio.Future]`, the `_message_handler`
  reader loop, `_send_command`, `stop`, `is_connected`.
* `ElectronUIBridge` (src/browser_use/electron/ui_bridge.py):
  `_input_handlers : Dict[str, Callable]`, the `_handle_ui_messages`
  reader loop, `_process_ui_message`, `request_user_input`.

Python dicts keyed by uuid strings are modelled as association lists;
`asyncio.Future` objects are modelled by numeric tokens allocated from a
counter in the state, with resolutions (`set_result` / `set_exception`)
emitted as explicit outcome events, so that "the caller was resolved with X"
is observable.  Socket writes and other externally visible effects are
emitted as explicit events as well.
-/

set_option autoImplicit false

/-- Association-list model of a Python `dict` with string keys. -/
abbrev Dict (β : Type) := List (String × β)

/-- `d.get(k)` / `k in d`: first (and, under the uuid discipline, only)
binding of `k`. -/
def dictGet {β : Type} (k : String) : Dict β → Option β
  | [] => none
  | (k', v) :: rest => if k' = k then some v else dictGet k rest

/-- `d[k] = v`: replace the binding of `k` in place if present, else append. -/
def dictInsert {β : Type} (k : String) (v : β) : Dict β → Dict β
  | [] => [(k, v)]
  | (k', v') :: rest =>
      if k' = k then (k, v) :: rest else (k', v') :: dictInsert k v rest

/-- `d.pop(k, None)`: the popped value (if any) and the remaining dict.
On a miss the dict is returned unchanged. -/
def dictPop {β : Type} (k : String) : Dict β → Option β × Dict β
  | [] => (none, [])
  | (k', v) :: rest =>
      if k' = k then (some v, rest)
      else
        let r := dictPop k rest
        (r.1, (k', v) :: r.2)

theorem dictPop_of_get_none {β : Type} (k : String) (d : Dict β)
    (h : dictGet k d = none) : dictPop k d = (none, d) := by
  induction d with
  | nil => simp [dictPop]
  | cons p rest ih =>
      obtain ⟨k', v⟩ := p
      by_cases hk : k' = k
      · simp [dictGet, hk] at h
      · simp [dictGet, hk] at h
        simp [dictPop, hk, ih h]

theorem dictPop_fst_of_get {β : Type} (k : String) (d : Dict β) (v : β)
    (h : dictGet k d = some v) : (dictPop k d).1 = some v := by
  induction d with
  | nil => simp [dictGet] at h
  | cons p rest ih =>
      obtain ⟨k', v'⟩ := p
      by_cases hk : k' = k
      · simp [dictGet, hk] at h
        simp [dictPop, hk, h]
      · simp [dictGet, hk] at h
        simp [dictPop, hk, ih h]

theorem dictGet_insert_self {β : Type} (k : String) (v : β) (d : Dict β) :
    dictGet k (dictInsert k v d) = some v := by
  induction d with
  | nil => simp [dictInsert, dictGet]
  | cons p rest ih =>
      obtain ⟨k', v'⟩ := p
      by_cases hk : k' = k
      · simp [dictInsert, hk, dictGet]
      · simp [dictInsert, hk, dictGet, ih]

/-- A resolution applied to an `asyncio.Future` (identified by its token):
`future.set_result(data.get('result'))` or
`future.set_exception(Exception(data['error']['message']))`. -/
inductive Outcome where
  | setResult (result : Option String)
  | setException (message : String)
  deriving DecidableEq

/-- The fields of a successfully `json.loads`-parsed inbound message that
`ElectronSession._message_handler` reads: `data.get('id')`, whether
`'error' in data` (with `data['error']['message']`), and
`data.get('result')` (an opaque JSON value, carried as a string). -/
structure InMsg where
  id : Option String
  error : Option String
  result : Option String
  deriving DecidableEq

/-- One step of the inbound websocket iterator `async for message in self.ws`:
a frame whose JSON parse succeeds, a frame on which `json.loads` raises,
or the iterator raising `ConnectionClosed` (socket closed or lost). -/
inductive Frame where
  | data (d : InMsg)
  | malformed
  | connClosed
  deriving DecidableEq

/-- How the reader loop ended: the stream ended, `ConnectionClosed` was
caught and logged, or an uncaught exception (e.g. `json.JSONDecodeError`)
escaped the loop and killed the reader task. -/
inductive ExitKind where
  | endOfStream
  | connectionClosed
  | crashedJson
  deriving DecidableEq

namespace ElectronSession

/-- The state of an `ElectronSession` that the messaging layer touches:
`self.ws` (whether a socket object is present), `self._pending_responses`
(correlation id to future token), and a fresh-future counter standing for
`asyncio.Future()` allocation. -/
structure SessionState where
  ws : Bool
  pending : Dict Nat
  nextFut : Nat
  deriving DecidableEq

/-- `ElectronSession.stop`: `await self.ws.close(); self.ws = None` when a
socket is present.  Nothing else is touched; in particular
`_pending_responses` is left as it is (the reader loop then exits via its
`ConnectionClosed` branch, see `message_handler`). -/
def stop (st : SessionState) : SessionState :=
  if st.ws then { st with ws := false } else st

/-- The body of `_message_handler` for one parsed message:
`msg_id = data.get('id')`; `if future := self._pending_responses.pop(msg_id,
None):` resolve it with the error message or the result.  A message whose id
is absent or unknown leaves the state unchanged and resolves nothing. -/
def handle_data (st : SessionState) (d : InMsg) :
    SessionState × List (Nat × Outcome) :=
  match d.id with
  | none => (st, [])
  | some i =>
      match dictPop i st.pending with
      | (none, _) => (st, [])
      | (some fut, rest) =>
          match d.error with
          | some m => ({ st with pending := rest }, [(fut, .setException m)])
          | none => ({ st with pending := rest }, [(fut, .setResult d.result)])

/-- `ElectronSession._message_handler`: the single reader loop.  It only
catches `websockets.exceptions.ConnectionClosed`; a `json.loads` failure
propagates and kills the task, leaving later frames unread.  On every exit
path the pending table is left untouched — there is no drain. -/
def message_handler (st : SessionState) :
    List Frame → SessionState × List (Nat × Outcome) × ExitKind
  | [] => (st, [], .endOfStream)
  | .connClosed :: _ => (st, [], .connectionClosed)
  | .malformed :: _ => (st, [], .crashedJson)
  | .data d :: rest =>
      let r := handle_data st d
      let r' := message_handler r.1 rest
      (r'.1, r.2 ++ r'.2.1, r'.2.2)

/-- An externally visible step of an outbound call: the pending-table
registration, and the initiation of the socket write of the request
envelope. -/
inductive SendEvent where
  | registered (id : String)
  | sendInitiated (id : String) (method : String)
  deriving DecidableEq

/-- How `_send_command` left its caller: the guard `if not self.ws: raise
RuntimeError(...)` fired; the `ws.send` raised and the exception propagated;
or the caller is suspended on `return await future` — with no
`asyncio.wait_for` wrapper, i.e. no deadline (`none`). -/
inductive SendOutcome where
  | raisedNotConnected
  | raisedSendError
  | awaiting (msgId : String) (timeout : Option Nat)
  deriving DecidableEq

structure SendCmdResult where
  state : SessionState
  events : List SendEvent
  outcome : SendOutcome
  deriving DecidableEq

/-- `ElectronSession._send_command`: guard on `self.ws`; generate `msg_id`
(passed in here — the source draws a fresh `uuid4`); allocate a future and
assign `self._pending_responses[msg_id] = future` (a plain dict assignment,
no duplicate check); then `await self.ws.send(...)` (its success is the
`send_ok` parameter — on failure the exception propagates with no cleanup);
finally `return await future`, a wait with no timeout. -/
def send_command (st : SessionState) (msg_id method : String)
    (send_ok : Bool) : SendCmdResult :=
  if st.ws then
    let st1 : SessionState :=
      { st with pending := dictInsert msg_id st.nextFut st.pending,
                nextFut := st.nextFut + 1 }
    if send_ok then
      ⟨st1, [.registered msg_id, .sendInitiated msg_id method],
        .awaiting msg_id none⟩
    else
      ⟨st1, [.registered msg_id, .sendInitiated msg_id method],
        .raisedSendError⟩
  else
    ⟨st, [], .raisedNotConnected⟩

/-- Connection-lifecycle effects of `start` / `is_connected`: the ping
round-trip issued through `_send_command`, the `websockets.connect` call
that establishes a new socket, and the `initialize` command sent by
`start`. -/
inductive ConnAction where
  | pingCommand
  | wsConnect
  | initCommand
  deriving DecidableEq

/-- `ElectronSession.start`, abstracted to its connection-lifecycle effects:
`self.ws = await websockets.connect(self.ws_url)` (success given by
`connect_ok`; on failure the exception propagates and `ws` is unchanged),
then the reader task is spawned and the `initialize` command is sent.  The
pending-table traffic of the `initialize` call is not modelled here; only
whether a new socket is established matters for the lifecycle claims. -/
def start (st : SessionState) (connect_ok : Bool) :
    SessionState × List ConnAction × Bool :=
  if connect_ok then
    ({ st with ws := true }, [.wsConnect, .initCommand], true)
  else
    (st, [], false)

/-- `ElectronSession.is_connected(restart=True)`: if a non-closed socket is
present, ping it (`await self._send_command('ping', {})`, abstracted to a
`pingCommand` action with result `ping_ok`) and return `True` on success;
otherwise, when `restart` is true, `try: await self.start(); return True`
(failure swallowed); else return `False`. -/
def is_connected (st : SessionState)
    (restart ws_closed ping_ok connect_ok : Bool) :
    SessionState × List ConnAction × Bool :=
  if st.ws ∧ ¬ws_closed then
    if ping_ok then (st, [.pingCommand], true)
    else if restart then
      let r := start st connect_ok
      (r.1, .pingCommand :: r.2.1, r.2.2)
    else (st, [.pingCommand], false)
  else if restart then
    start st connect_ok
  else
    (st, [], false)

end ElectronSession

namespace ElectronUIBridge

/-- The state of an `ElectronUIBridge` that the messaging layer touches:
`self.ws` (socket object present), `self._connected`, `self._input_handlers`
(input id to the future token its handler closure resolves), and a
fresh-future counter standing for `asyncio.Future()` allocation. -/
structure BridgeState where
  ws : Bool
  connected : Bool
  input_handlers : Dict Nat
  nextFut : Nat
  deriving DecidableEq

/-- The fields of a parsed UI message that `_process_ui_message` reads:
`data.get('type')`, `data.get('input_id')`, `data.get('value')` (opaque,
carried as an optional string), `data.get('command')` and
`data.get('params', \x7b\x7d)` for `command` messages. -/
structure UIData where
  type : Option String
  input_id : Option String
  value : Option String
  command : Option String
  params : Option String
  deriving DecidableEq

/-- What `_process_ui_message` does with one message: invoke a popped input
handler — the closure `lambda value: future.set_result(value)` registered by
`request_user_input`, so this is a normal successful resolution of that
future — or emit a `ui_command_<command>` event on the event bus. -/
inductive UIAction where
  | resolveInput (fut : Nat) (value : Option String)
  | emitUICommand (command : Option String) (params : Option String)
  deriving DecidableEq

/-- The event name `f"ui_command_\x7bcommand\x7d"` (Python renders a missing
command as the string `None`). -/
def uiCommandEventName (command : Option String) : String :=
  "ui_command_" ++ (match command with | some c => c | none => "None")

/-- `ElectronUIBridge._process_ui_message`: dispatch on `data.get('type')`.
For `'user_input'`, `self._input_handlers.pop(input_id, None)` — if a
handler was registered under the embedded `input_id`, call it with
`data.get('value')` (resolving the matching future); an unknown or absent
`input_id` is a silent no-op.  For `'command'`, emit on the event bus.
Anything else is ignored. -/
def process_ui_message (st : BridgeState) (d : UIData) :
    BridgeState × List UIAction :=
  if d.type = some "user_input" then
    match d.input_id with
    | none => (st, [])
    | some iid =>
        match dictPop iid st.input_handlers with
        | (some fut, rest) =>
            ({ st with input_handlers := rest }, [.resolveInput fut d.value])
        | (none, _) => (st, [])
  else if d.type = some "command" then
    (st, [.emitUICommand d.command d.params])
  else
    (st, [])

/-- One step of the bridge's inbound websocket iterator: a frame that
parses to a `UIData`, a frame on which `json.loads` raises, or the iterator
raising `ConnectionClosed`. -/
inductive UIFrame where
  | data (d : UIData)
  | malformed
  | connClosed
  deriving DecidableEq

/-- How the bridge reader loop ended: stream end, `ConnectionClosed` caught
(and `self._connected = False` set), or any other exception — e.g. a
`json.loads` failure — caught by the trailing `except Exception` and logged;
in every case the loop is over and later frames are never read. -/
inductive BridgeExit where
  | endOfStream
  | connectionClosed
  | loggedError
  deriving DecidableEq

/-- `ElectronUIBridge._handle_ui_messages`: the reader loop.  Both `except`
clauses sit outside the `async for`, so a malformed frame is logged but
still terminates the loop; `_input_handlers` is never drained on any exit
path. -/
def handle_ui_messages (st : BridgeState) :
    List UIFrame → BridgeState × List UIAction × BridgeExit
  | [] => (st, [], .endOfStream)
  | .connClosed :: _ => ({ st with connected := false }, [], .connectionClosed)
  | .malformed :: _ => (st, [], .loggedError)
  | .data d :: rest =>
      let r := process_ui_message st d
      let r' := handle_ui_messages r.1 rest
      (r'.1, r.2 ++ r'.2.1, r'.2.2)

/-- How `request_user_input` left its caller: the guard `if not
self._connected or not self.ws: raise RuntimeError(...)` fired; the
`ws.send` raised and the exception propagated; or the caller is suspended
on `asyncio.wait_for(future, timeout=300)` — a 300-second deadline. -/
inductive ReqOutcome where
  | raisedNotConnected
  | raisedSendError
  | waiting (inputId : String) (timeoutSecs : Nat)
  deriving DecidableEq

structure ReqUIResult where
  state : BridgeState
  events : List ElectronSession.SendEvent
  outcome : ReqOutcome
  deriving DecidableEq

/-- `ElectronUIBridge.request_user_input`: guard on `self._connected` and
`self.ws`; generate `input_id` (passed in here — the source draws a fresh
`uuid4`); allocate a future and register
`self._input_handlers[input_id] = lambda value: future.set_result(value)`;
then `await self.ws.send(...)` of the `input_request` message (success given
by `send_ok`; on failure the exception propagates); finally wait on the
future under `asyncio.wait_for(..., timeout=300)`. -/
def request_user_input (st : BridgeState) (input_id : String)
    (send_ok : Bool) : ReqUIResult :=
  if st.connected ∧ st.ws then
    let st1 : BridgeState :=
      { st with input_handlers := dictInsert input_id st.nextFut st.input_handlers,
                nextFut := st.nextFut + 1 }
    if send_ok then
      ⟨st1, [.registered input_id, .sendInitiated input_id "input_request"],
        .waiting input_id 300⟩
    else
      ⟨st1, [.registered input_id, .sendInitiated input_id "input_request"],
        .raisedSendError⟩
  else
    ⟨st, [], .raisedNotConnected⟩

/-- The `except asyncio.TimeoutError` branch of `request_user_input`:
`self._input_handlers.pop(input_id, None)` before `TimeoutError` is
re-raised to the caller. -/
def user_input_timeout_cleanup (st : BridgeState) (input_id : String) :
    BridgeState :=
  { st with input_handlers := (dictPop input_id st.input_handlers).2 }

end ElectronUIBridge

/-- Result of suspending a caller on a future, given the deadline of the
wait (`none` for a bare `await future`, `some d` for
`asyncio.wait_for(future, timeout=d)`) and the time and value at which the
future is resolved, if ever: the value if resolution beats the deadline, a
`TimeoutError` raised exactly at the deadline otherwise, or — with no
deadline and no resolution — a suspension that never ends. -/
inductive WaitOutcome where
  | value (v : Option String)
  | timedOutAt (t : Nat)
  | suspendedForever
  deriving DecidableEq

/-- Semantics of the caller-side wait: `await future` resolves only when
something resolves the future; `asyncio.wait_for` bounds the wait. -/
def await_future (deadline : Option Nat) (resolveAt : Option (Nat × Option String)) :
    WaitOutcome :=
  match resolveAt, deadline with
  | some r, some d => if r.1 < d then .value r.2 else .timedOutAt d
  | some r, none => .value r.2
  | none, some d => .timedOutAt d
  | none, none => .suspendedForever

/-- If `k` is absent from `d`, registering `k` and then popping it returns
exactly to `d`. -/
theorem dictPop_insert_fresh {β : Type} (k : String) (v : β) (d : Dict β)
    (h : dictGet k d = none) : dictPop k (dictInsert k v d) = (some v, d) := by
  induction d with
  | nil => simp [dictInsert, dictPop]
  | cons p rest ih =>
      obtain ⟨k', v'⟩ := p
      by_cases hk : k' = k
      · simp [dictGet, hk] at h
      · simp [dictGet, hk] at h
        simp [dictInsert, hk, dictPop, ih h]

/-- C1, counterexample.  A connection with one pending call (`"a"`, future
`0`) is closed: by `stop()` the table is untouched, and the reader loop,
seeing `ConnectionClosed`, exits emitting no resolution at all, with the
entry still in the table.  This contradicts "closing the connection resolves
every one of those N pending calls with a ConnectionClosed error; no pending
call is left unresolved after the reader loop exits". -/
theorem close_leaves_entry_pending_cex :
    (ElectronSession.stop ⟨true, [("a", 0)], 1⟩).pending = [("a", 0)] ∧
    ElectronSession.message_handler ⟨true, [("a", 0)], 1⟩ [Frame.connClosed] =
      (⟨true, [("a", 0)], 1⟩, [], ExitKind.connectionClosed) := by
  decide

/-- C1, amended: closing the connection — an explicit `stop()` or the socket
being lost — terminates the reader loop, but resolves none of the pending
calls: no outcome is emitted on the `connClosed` exit and the pending table
is left exactly as it was, so callers of `_send_command` remain suspended. -/
theorem close_resolves_no_pending (st : ElectronSession.SessionState)
    (rest : List Frame) :
    ElectronSession.message_handler st (Frame.connClosed :: rest) =
      (st, [], ExitKind.connectionClosed) ∧
    (ElectronSession.stop st).pending = st.pending := by
  refine ⟨rfl, ?_⟩
  unfold ElectronSession.stop
  split <;> rfl

/-- C2, counterexample.  A session-path call (`navigate`) is registered and
sent, but the caller then suspends on a bare `await future` — deadline
`none`; if no response ever arrives the wait never ends, rather than
resolving with Timeout at a configured deadline.  This contradicts "every
call issued through the caller-facing RPC path has an explicit finite
timeout". -/
theorem session_call_has_no_deadline_cex :
    (ElectronSession.send_command ⟨true, [], 0⟩ "a" "navigate" true).outcome =
      ElectronSession.SendOutcome.awaiting "a" none ∧
    await_future none none = WaitOutcome.suspendedForever := by
  decide

/-- C2, amended: only the human-input path has a finite deadline.
`request_user_input` waits under `asyncio.wait_for(..., 300)` and, with no
response ever arriving, raises `TimeoutError` at exactly 300 s and removes
its own handler entry; `_send_command` awaits its future with no deadline,
and a call whose response never arrives suspends forever. -/
theorem timeout_only_on_user_input_path (st : ElectronSession.SessionState)
    (mid meth : String) (bst : ElectronUIBridge.BridgeState) (iid : String)
    (hs : st.ws = true) (hb : bst.connected = true) (hbw : bst.ws = true)
    (hfresh : dictGet iid bst.input_handlers = none) :
    (ElectronSession.send_command st mid meth true).outcome =
      ElectronSession.SendOutcome.awaiting mid none ∧
    await_future none none = WaitOutcome.suspendedForever ∧
    (ElectronUIBridge.request_user_input bst iid true).outcome =
      ElectronUIBridge.ReqOutcome.waiting iid 300 ∧
    await_future (some 300) none = WaitOutcome.timedOutAt 300 ∧
    dictGet iid (ElectronUIBridge.user_input_timeout_cleanup
        (ElectronUIBridge.request_user_input bst iid true).state
        iid).input_handlers = none := by
  refine ⟨?_, rfl, ?_, rfl, ?_⟩
  · simp [ElectronSession.send_command, hs]
  · simp [ElectronUIBridge.request_user_input, hb, hbw]
  · simp [ElectronUIBridge.request_user_input, hb, hbw,
      ElectronUIBridge.user_input_timeout_cleanup,
      dictPop_insert_fresh iid bst.nextFut bst.input_handlers hfresh, hfresh]

/-- Witness for `timeout_only_on_user_input_path` at a concrete connected
session and bridge. -/
theorem timeout_only_on_user_input_path_witness :
    (ElectronSession.send_command ⟨true, [], 0⟩ "m" "navigate" true).outcome =
      ElectronSession.SendOutcome.awaiting "m" none ∧
    await_future none none = WaitOutcome.suspendedForever ∧
    (ElectronUIBridge.request_user_input ⟨true, true, [], 0⟩ "i" true).outcome =
      ElectronUIBridge.ReqOutcome.waiting "i" 300 ∧
    await_future (some 300) none = WaitOutcome.timedOutAt 300 ∧
    dictGet "i" (ElectronUIBridge.user_input_timeout_cleanup
        (ElectronUIBridge.request_user_input ⟨true, true, [], 0⟩ "i" true).state
        "i").input_handlers = none :=
  timeout_only_on_user_input_path ⟨true, [], 0⟩ "m" "navigate"
    ⟨true, true, [], 0⟩ "i" rfl rfl rfl (by decide)

/-- C3: a push event of type `user_input` whose `input_id` matches a
registered pending human-input request pops that handler and invokes it with
the event's `value` — i.e. the matching future is resolved as a normal
successful result (`resolveInput`), and the message is not forwarded as an
unmatched push event. -/
theorem user_input_event_resolves_pending (st : ElectronUIBridge.BridgeState)
    (x : String) (v c p : Option String) (fut : Nat)
    (h : dictGet x st.input_handlers = some fut) :
    ElectronUIBridge.process_ui_message st ⟨some "user_input", some x, v, c, p⟩ =
      ({ st with input_handlers := (dictPop x st.input_handlers).2 },
        [ElectronUIBridge.UIAction.resolveInput fut v]) := by
  have h1 := dictPop_fst_of_get x st.input_handlers fut h
  rcases hpop : dictPop x st.input_handlers with ⟨o, rest⟩
  rw [hpop] at h1
  simp only at h1
  subst h1
  simp [ElectronUIBridge.process_ui_message, hpop]

/-- Witness for `user_input_event_resolves_pending`: a bridge with pending
input request `"x"` (future `7`) receives
`\x7b"type":"user_input","input_id":"x","value":"yes"\x7d` and future `7` is
resolved with `"yes"`. -/
theorem user_input_event_resolves_pending_witness :
    ElectronUIBridge.process_ui_message ⟨true, true, [("x", 7)], 8⟩
        ⟨some "user_input", some "x", some "yes", none, none⟩ =
      (⟨true, true, (dictPop "x" ([("x", 7)] : Dict Nat)).2, 8⟩,
        [ElectronUIBridge.UIAction.resolveInput 7 (some "yes")]) :=
  user_input_event_resolves_pending ⟨true, true, [("x", 7)], 8⟩ "x"
    (some "yes") none none 7 (by decide)

/-- C4, counterexample.  A malformed frame followed by a well-formed one.
On the session reader the parse exception is uncaught: the loop dies
(`crashedJson`) and the following well-formed response — which would have
resolved pending entry `"a"` — is never read, and no `ProtocolError` is
reported.  On the bridge reader the exception is caught and logged, but the
loop still exits (`loggedError`) and the following `user_input` event is
never read.  This contradicts "reports a ProtocolError, discards that frame,
and continues processing subsequent frames". -/
theorem malformed_frame_kills_loop_cex :
    ElectronSession.message_handler ⟨true, [("a", 0)], 1⟩
        [Frame.malformed, Frame.data ⟨some "a", none, some "ok"⟩] =
      (⟨true, [("a", 0)], 1⟩, [], ExitKind.crashedJson) ∧
    ElectronUIBridge.handle_ui_messages ⟨true, true, [("x", 0)], 1⟩
        [ElectronUIBridge.UIFrame.malformed,
          ElectronUIBridge.UIFrame.data
            ⟨some "user_input", some "x", some "yes", none, none⟩] =
      (⟨true, true, [("x", 0)], 1⟩, [], ElectronUIBridge.BridgeExit.loggedError) := by
  decide

/-- C4, amended: a malformed inbound frame terminates the reader loop.  In
the session handler the `json.loads` exception propagates uncaught (only
`ConnectionClosed` is caught) and kills the reader task; in the UI bridge it
is caught by the trailing `except Exception` and logged, but the loop still
exits.  No ProtocolError event exists and the frames after the malformed one
are never processed. -/
theorem malformed_frame_terminates_loop (st : ElectronSession.SessionState)
    (rest : List Frame) (bst : ElectronUIBridge.BridgeState)
    (urest : List ElectronUIBridge.UIFrame) :
    ElectronSession.message_handler st (Frame.malformed :: rest) =
      (st, [], ExitKind.crashedJson) ∧
    ElectronUIBridge.handle_ui_messages bst
        (ElectronUIBridge.UIFrame.malformed :: urest) =
      (bst, [], ElectronUIBridge.BridgeExit.loggedError) :=
  ⟨rfl, rfl⟩

/-- C5: on both call paths, the pending-table registration happens strictly
before the socket write is initiated: the visible event trace is exactly
`[registered id, sendInitiated id _]`, and the registered entry (the freshly
allocated future) is in the table in the state from which the write is
issued — whether or not the write then succeeds. -/
theorem register_precedes_send (st : ElectronSession.SessionState)
    (mid meth : String) (ok : Bool) (bst : ElectronUIBridge.BridgeState)
    (iid : String) (ok' : Bool) (hs : st.ws = true)
    (hb : bst.connected = true) (hbw : bst.ws = true) :
    (ElectronSession.send_command st mid meth ok).events =
      [ElectronSession.SendEvent.registered mid,
        ElectronSession.SendEvent.sendInitiated mid meth] ∧
    dictGet mid (ElectronSession.send_command st mid meth ok).state.pending =
      some st.nextFut ∧
    (ElectronUIBridge.request_user_input bst iid ok').events =
      [ElectronSession.SendEvent.registered iid,
        ElectronSession.SendEvent.sendInitiated iid "input_request"] ∧
    dictGet iid
        (ElectronUIBridge.request_user_input bst iid ok').state.input_handlers =
      some bst.nextFut := by
  cases ok <;> cases ok' <;>
    simp [ElectronSession.send_command, ElectronUIBridge.request_user_input,
      hs, hb, hbw, dictGet_insert_self]

/-- Witness for `register_precedes_send` at a concrete connected session and
bridge. -/
theorem register_precedes_send_witness :
    (ElectronSession.send_command ⟨true, [], 0⟩ "m" "ping" true).events =
      [ElectronSession.SendEvent.registered "m",
        ElectronSession.SendEvent.sendInitiated "m" "ping"] ∧
    dictGet "m" (ElectronSession.send_command ⟨true, [], 0⟩ "m" "ping"
        true).state.pending = some 0 ∧
    (ElectronUIBridge.request_user_input ⟨true, true, [], 0⟩ "i" true).events =
      [ElectronSession.SendEvent.registered "i",
        ElectronSession.SendEvent.sendInitiated "i" "input_request"] ∧
    dictGet "i" (ElectronUIBridge.request_user_input ⟨true, true, [], 0⟩ "i"
        true).state.input_handlers = some 0 :=
  register_precedes_send ⟨true, [], 0⟩ "m" "ping" true ⟨true, true, [], 0⟩
    "i" true rfl rfl rfl

/-- C6, counterexample.  A call on a connected session whose socket write
fails: the caller does fail (the `ws.send` exception propagates), but the
just-registered entry (`"a"`, future `0`) is still in the table afterwards —
there is no cleanup.  This contradicts "the just-registered pending-request
table entry is immediately cleaned up ... the table never retains an entry
whose request envelope was never sent". -/
theorem send_failure_leaves_entry_cex :
    (ElectronSession.send_command ⟨true, [], 0⟩ "a" "navigate" false).outcome =
      ElectronSession.SendOutcome.raisedSendError ∧
    (ElectronSession.send_command ⟨true, [], 0⟩ "a" "navigate"
        false).state.pending = [("a", 0)] := by
  decide

/-- C6, amended: when the socket write fails, the `ws.send` exception
propagates to the caller, but the just-registered entry is not cleaned up:
the pending table retains the entry (under its fresh future) even though its
request envelope was never delivered. -/
theorem send_failure_retains_entry (st : ElectronSession.SessionState)
    (mid meth : String) (hs : st.ws = true) :
    (ElectronSession.send_command st mid meth false).outcome =
      ElectronSession.SendOutcome.raisedSendError ∧
    dictGet mid (ElectronSession.send_command st mid meth false).state.pending =
      some st.nextFut := by
  simp [ElectronSession.send_command, hs, dictGet_insert_self]

/-- Witness for `send_failure_retains_entry` at a concrete connected
session. -/
theorem send_failure_retains_entry_witness :
    (ElectronSession.send_command ⟨true, [], 0⟩ "a" "navigate" false).outcome =
      ElectronSession.SendOutcome.raisedSendError ∧
    dictGet "a" (ElectronSession.send_command ⟨true, [], 0⟩ "a" "navigate"
        false).state.pending = some 0 :=
  send_failure_retains_entry ⟨true, [], 0⟩ "a" "navigate" rfl

/-- C7: resolving a correlation id with no live table entry is a silent
no-op on both paths.  A response frame whose id is unknown leaves the
session state unchanged, resolves nothing, and the reader loop continues
exactly as if the frame had not been there; a `user_input` event whose
`input_id` is unknown (e.g. its request already timed out and popped its own
entry) leaves the bridge state unchanged and resolves nothing. -/
theorem unknown_id_resolution_is_noop (st : ElectronSession.SessionState)
    (i : String) (err res : Option String) (rest : List Frame)
    (bst : ElectronUIBridge.BridgeState) (x : String) (v c p : Option String)
    (h : dictGet i st.pending = none)
    (hb : dictGet x bst.input_handlers = none) :
    ElectronSession.handle_data st ⟨some i, err, res⟩ = (st, []) ∧
    ElectronSession.message_handler st (Frame.data ⟨some i, err, res⟩ :: rest) =
      ElectronSession.message_handler st rest ∧
    ElectronUIBridge.process_ui_message bst ⟨some "user_input", some x, v, c, p⟩ =
      (bst, []) := by
  have hd : ElectronSession.handle_data st ⟨some i, err, res⟩ = (st, []) := by
    simp [ElectronSession.handle_data, dictPop_of_get_none i st.pending h]
  refine ⟨hd, ?_, ?_⟩
  · simp [ElectronSession.message_handler, hd]
  · simp [ElectronUIBridge.process_ui_message,
      dictPop_of_get_none x bst.input_handlers hb]

/-- Witness for `unknown_id_resolution_is_noop`: a stray response `"a"` on a
session whose only pending id is `"b"`, and a stray `user_input` event `"x"`
on a bridge with no handlers. -/
theorem unknown_id_resolution_is_noop_witness :
    ElectronSession.handle_data ⟨true, [("b", 0)], 1⟩ ⟨some "a", none, some "r"⟩ =
      (⟨true, [("b", 0)], 1⟩, []) ∧
    ElectronSession.message_handler ⟨true, [("b", 0)], 1⟩
        [Frame.data ⟨some "a", none, some "r"⟩] =
      ElectronSession.message_handler ⟨true, [("b", 0)], 1⟩ [] ∧
    ElectronUIBridge.process_ui_message ⟨true, true, [], 0⟩
        ⟨some "user_input", some "x", some "yes", none, none⟩ =
      (⟨true, true, [], 0⟩, []) :=
  unknown_id_resolution_is_noop ⟨true, [("b", 0)], 1⟩ "a" none (some "r") []
    ⟨true, true, [], 0⟩ "x" (some "yes") none none (by decide) (by decide)

/-- C8, counterexample.  Registering a call under id `"a"` while `"a"` is
already pending (future `0`): the call is not rejected — it proceeds to the
normal suspended outcome — and the table now binds `"a"` to the new future
`1`, the old entry silently overwritten (its future orphaned).  This
contradicts "fails with a DuplicateId error ... rather than overwriting or
orphaning the existing entry". -/
theorem duplicate_id_overwrites_cex :
    (ElectronSession.send_command ⟨true, [("a", 0)], 1⟩ "a" "ping" true).outcome =
      ElectronSession.SendOutcome.awaiting "a" none ∧
    (ElectronSession.send_command ⟨true, [("a", 0)], 1⟩ "a" "ping"
        true).state.pending = [("a", 1)] := by
  decide

/-- C8, amended: registration is a plain dict assignment with no duplicate
check: a call under an id already present proceeds normally, and the table
afterwards binds that id to the newly allocated future — the previous
entry's future is silently dropped from the table (orphaned). -/
theorem duplicate_id_registration_overwrites (st : ElectronSession.SessionState)
    (mid meth : String) (f : Nat) (hs : st.ws = true)
    (_hdup : dictGet mid st.pending = some f) :
    (ElectronSession.send_command st mid meth true).outcome =
      ElectronSession.SendOutcome.awaiting mid none ∧
    dictGet mid (ElectronSession.send_command st mid meth true).state.pending =
      some st.nextFut := by
  simp [ElectronSession.send_command, hs, dictGet_insert_self]

/-- Witness for `duplicate_id_registration_overwrites` at a concrete session
already holding id `"a"`. -/
theorem duplicate_id_registration_overwrites_witness :
    (ElectronSession.send_command ⟨true, [("a", 0)], 1⟩ "a" "ping" true).outcome =
      ElectronSession.SendOutcome.awaiting "a" none ∧
    dictGet "a" (ElectronSession.send_command ⟨true, [("a", 0)], 1⟩ "a" "ping"
        true).state.pending = some 1 :=
  duplicate_id_registration_overwrites ⟨true, [("a", 0)], 1⟩ "a" "ping" 0 rfl
    (by decide)

/-- C9, counterexample.  A session whose socket is gone (`ws = none`) runs
`is_connected` with the default `restart=True`: the call itself performs the
`websockets.connect` (`wsConnect` action) and leaves the session with a new
live socket.  This contradicts "no operation of the session other than an
external caller invoking connect/start establishes a new socket after a
connection loss". -/
theorem is_connected_reconnects_cex :
    (ElectronSession.is_connected ⟨false, [("a", 0)], 1⟩ true false false true).1.ws =
      true ∧
    ElectronSession.ConnAction.wsConnect ∈
      (ElectronSession.is_connected ⟨false, [("a", 0)], 1⟩ true false false
        true).2.1 := by
  decide

/-- C9, amended: reconnection policy lives inside `is_connected` itself:
with `restart=False` no new socket is ever established by it, but with the
default `restart=True` a disconnected session's `is_connected` call performs
`start()` and establishes a new socket on its own. -/
theorem is_connected_restart_policy (st st' : ElectronSession.SessionState)
    (wc pk ck wc' pk' : Bool) (h : st'.ws = false) :
    ElectronSession.ConnAction.wsConnect ∉
      (ElectronSession.is_connected st false wc pk ck).2.1 ∧
    ElectronSession.ConnAction.wsConnect ∈
      (ElectronSession.is_connected st' true wc' pk' true).2.1 := by
  constructor
  · rcases st with ⟨w, pnd, n⟩
    cases w <;> cases wc <;> cases pk <;>
      simp [ElectronSession.is_connected, ElectronSession.start]
  · simp [ElectronSession.is_connected, ElectronSession.start, h]

/-- Witness for `is_connected_restart_policy` at concrete sessions. -/
theorem is_connected_restart_policy_witness :
    ElectronSession.ConnAction.wsConnect ∉
      (ElectronSession.is_connected ⟨false, [], 0⟩ false false false false).2.1 ∧
    ElectronSession.ConnAction.wsConnect ∈
      (ElectronSession.is_connected ⟨false, [("a", 0)], 1⟩ true false false
        true).2.1 :=
  is_connected_restart_policy ⟨false, [], 0⟩ ⟨false, [("a", 0)], 1⟩ false false
    false false false rfl

/-- C10: invoking either send path while disconnected raises `RuntimeError`
before any state change: the state is returned exactly as it was (no entry
registered, no handler registered) and no event is emitted (nothing written
to any socket). -/
theorem disconnected_send_raises_without_state_change
    (st : ElectronSession.SessionState) (mid meth : String) (ok : Bool)
    (bst : ElectronUIBridge.BridgeState) (iid : String) (ok' : Bool)
    (hs : st.ws = false) (hb : bst.connected = false ∨ bst.ws = false) :
    ElectronSession.send_command st mid meth ok =
      ⟨st, [], ElectronSession.SendOutcome.raisedNotConnected⟩ ∧
    ElectronUIBridge.request_user_input bst iid ok' =
      ⟨bst, [], ElectronUIBridge.ReqOutcome.raisedNotConnected⟩ := by
  constructor
  · simp [ElectronSession.send_command, hs]
  · rcases hb with hb | hb <;> simp [ElectronUIBridge.request_user_input, hb]

/-- Witness for `disconnected_send_raises_without_state_change`: a session
with `ws = None` and a bridge with `_connected = False`. -/
theorem disconnected_send_raises_without_state_change_witness :
    ElectronSession.send_command ⟨false, [], 0⟩ "m" "ping" true =
      ⟨⟨false, [], 0⟩, [], ElectronSession.SendOutcome.raisedNotConnected⟩ ∧
    ElectronUIBridge.request_user_input ⟨true, false, [], 0⟩ "i" true =
      ⟨⟨true, false, [], 0⟩, [], ElectronUIBridge.ReqOutcome.raisedNotConnected⟩ :=
  disconnected_send_raises_without_state_change ⟨false, [], 0⟩ "m" "ping" true
    ⟨true, false, [], 0⟩ "i" true rfl (Or.inl rfl)
